import Mathlib

/-!
Shallow embedding of the data model of `sparcs09-api/apps/core/models.py`.

The repository is a Django schema: eight model classes (`User` is Django's
built-in), foreign keys with explicit `on_delete` behaviour, and two derived
computations (`Record.cost`, `UserLog.pretty`).  Rows are embedded as Lean
structures holding the declared columns; a database is lists of rows; the
deletion cascade induced by the `on_delete=models.CASCADE` declarations is an
explicit function on the database.  Timestamps are abstract integers and the
localized ISO rendering of `django.utils.timezone.localtime(...).isoformat()`
is an abstract parameter, since wall-clock formatting is external to the
schema.
-/

namespace Sparcs09

/-- Django's built-in `User` (referenced by `models.ForeignKey(User, ...)`):
only the surrogate id and the `username` column matter to this schema. -/
structure User where
  id : Nat
  username : String
deriving DecidableEq

/-- `class Item(models.Model)` — `models.py` lines 6-37.  `join_type` is the
stored `CharField` choice value (`'0'` open, `'1'` closed); the three
`DateTimeField`s are abstract instants; `delivery_date` is nullable
(`null=True`). -/
structure Item where
  id : Nat
  title : String
  host : Nat
  price : Int
  join_type : String
  created_date : Int
  deadline : Int
  delivery_date : Option Int
  is_deleted : Bool
deriving DecidableEq

/-- `class Content(models.Model)` — `models.py` lines 40-71.  `item` is the
foreign-key id (declared `on_delete=models.CASCADE`); `type` stores one of the
`CONTENT_TYPE_CHOICES` values `'0' | '1' | '2'`; the three payload columns
`content`, `image`, `link` are each declared `null=True, blank=True`, hence
`Option`. -/
structure Content where
  id : Nat
  item : Nat
  order : Int
  type : String
  content : Option String
  image : Option String
  link : Option String
  is_hidden : Bool
deriving DecidableEq

/-- `class Comment(models.Model)` — `models.py` lines 74-91; `item` declared
`on_delete=models.CASCADE`. -/
structure Comment where
  id : Nat
  item : Nat
  content : String
  writer : Nat
  created_date : Int
  is_deleted : Bool
deriving DecidableEq

/-- `class OptionCategory(models.Model)` — `models.py` lines 94-104; `item`
declared `on_delete=models.CASCADE`. -/
structure OptionCategory where
  id : Nat
  name : String
  item : Nat
deriving DecidableEq

/-- `class OptionItem(models.Model)` — `models.py` lines 107-120; `category`
declared `on_delete=models.CASCADE`. -/
structure OptionItem where
  id : Nat
  name : String
  price_delta : Int
  category : Nat
deriving DecidableEq

/-- `class Record(models.Model)` — `models.py` lines 123-144.  `participant`
and `item` are foreign keys declared `on_delete=models.CASCADE`; `options` is
the `ManyToManyField(OptionItem)` stored as the set of linked `OptionItem`
ids; `quantity = models.IntegerField()` is a plain integer column. -/
structure Record where
  id : Nat
  participant : Nat
  item : Nat
  options : List Nat
  quantity : Int
deriving DecidableEq

/-- `class Payment(models.Model)` — `models.py` lines 147-171; `item` and
`participant` declared `on_delete=models.CASCADE`; `status` stores one of the
`STATUS_CHOICES` values `'0' | '1' | '2'`. -/
structure Payment where
  id : Nat
  item : Nat
  participant : Nat
  total : Int
  status : String
deriving DecidableEq

/-- `class UserLog(models.Model)` — `models.py` lines 174-209.  `user` is the
nullable foreign key (`blank=True, null=True`): as in a loaded Django
instance, it is the related `User` object or `none`. -/
structure UserLog where
  id : Nat
  user : Option User
  level : Int
  time : Int
  ip : String
  group : String
  text : String
  is_hidden : Bool
deriving DecidableEq

/-- The relational state: one list of rows per model class. -/
structure DB where
  users : List User
  items : List Item
  contents : List Content
  comments : List Comment
  optionCategories : List OptionCategory
  optionItems : List OptionItem
  records : List Record
  payments : List Payment
  logs : List UserLog
deriving DecidableEq

/-- The `OptionItem` rows linked to a record through its many-to-many
`options` field (Python's `self.options.all()`). -/
def Record.selectedOptions (db : DB) (r : Record) : List OptionItem :=
  db.optionItems.filter (fun o => r.options.contains o.id)

/-- `Record.cost` — `models.py` lines 139-144:

    price = self.item.price
    for optItem in self.options.all():
        price += optItem.price_delta
    return price * self.quantity

`self.item` is resolved against the database; the loop is the fold.  The
method performs no check relating the selected options to the item's option
categories. -/
def Record.cost (db : DB) (r : Record) : Option Int :=
  match db.items.find? (fun i => i.id == r.item) with
  | none => none
  | some it =>
      some (((Record.selectedOptions db r).foldl
        (fun price o => price + o.price_delta) it.price) * r.quantity)

/-- An `OptionItem` row is swept along when item `itemId` is deleted iff its
category belongs to that item: `OptionItem.category` declares
`on_delete=models.CASCADE` and `OptionCategory.item` declares
`on_delete=models.CASCADE`. -/
def optionItemCascades (db : DB) (itemId : Nat) (o : OptionItem) : Bool :=
  db.optionCategories.any (fun c => c.id == o.category && c.item == itemId)

/-- Physical deletion of an `Item` row, following the `on_delete` declarations
of `models.py`: `Content.item`, `Comment.item`, `OptionCategory.item`,
`Record.item` and `Payment.item` all declare `on_delete=models.CASCADE`, so
their rows referencing the deleted item are deleted; option items of the
deleted categories are deleted transitively; many-to-many link rows from
surviving records to deleted option items are removed with them.  `UserLog`
does not reference `Item`. -/
def deleteItem (db : DB) (itemId : Nat) : DB :=
  { users := db.users
    items := db.items.filter (fun i => !(i.id == itemId))
    contents := db.contents.filter (fun c => !(c.item == itemId))
    comments := db.comments.filter (fun c => !(c.item == itemId))
    optionCategories := db.optionCategories.filter (fun c => !(c.item == itemId))
    optionItems := db.optionItems.filter (fun o => !(optionItemCascades db itemId o))
    records := (db.records.filter (fun r => !(r.item == itemId))).map
      (fun r => { r with options := (r.options.filter
        (fun oid => !(db.optionItems.any
          (fun o => o.id == oid && optionItemCascades db itemId o)))) })
    payments := db.payments.filter (fun p => !(p.item == itemId))
    logs := db.logs }

/-- Modelled from the spec: the source declares only the flag column
`is_deleted = models.BooleanField(default=False)` (`models.py` line 34); the
soft-delete operation itself lives in the external web layer.  Per the spec,
soft-deleting an Item sets `is_deleted` on the targeted row and touches
nothing else. -/
def softDeleteItem (db : DB) (itemId : Nat) : DB :=
  { db with items := db.items.map (fun it =>
      if it.id == itemId then { it with is_deleted := true } else it) }

/-- Schema-level acceptance of a `Content` row: the declarations of
`models.py` lines 63-71 enforce a non-null foreign key to an existing `Item`
and a `type` among the `CONTENT_TYPE_CHOICES`; the payload columns `content`,
`image`, `link` are each `null=True, blank=True`, so the schema states no
constraint on them. -/
def Content.schemaAccepts (db : DB) (c : Content) : Bool :=
  db.items.any (fun i => i.id == c.item) &&
  (c.type == "0" || c.type == "1" || c.type == "2")

/-- How many of a `Content` row's three payload fields are populated. -/
def Content.populatedCount (c : Content) : Nat :=
  (if c.content.isSome then 1 else 0) +
  (if c.image.isSome then 1 else 0) +
  (if c.link.isSome then 1 else 0)

/-- The documented (not schema-enforced) payload discipline of `Content`:
exactly one payload field populated, the one selected by `type`
(`content` iff TEXT `'0'`, `image` iff IMAGE `'1'`, `link` iff VIDEO `'2'`). -/
def Content.payloadMatchesType (c : Content) : Bool :=
  match c.type with
  | "0" => c.content.isSome && c.image.isNone && c.link.isNone
  | "1" => c.image.isSome && c.content.isNone && c.link.isNone
  | "2" => c.link.isSome && c.content.isNone && c.image.isNone
  | _ => false

/-- Schema-level acceptance of a `Record` row: the declarations of
`models.py` lines 134-137 enforce non-null foreign keys to an existing user
and item and valid many-to-many targets; `quantity = models.IntegerField()`
carries no further validator. -/
def Record.schemaAccepts (db : DB) (r : Record) : Bool :=
  db.users.any (fun u => u.id == r.participant) &&
  db.items.any (fun i => i.id == r.item) &&
  r.options.all (fun oid => db.optionItems.any (fun o => o.id == oid))

/-- `UserLog.pretty` — `models.py` lines 200-204:

    username = self.user.username if self.user else 'undefined'
    time_str = localtime(self.time).isoformat()
    return (f'{username}/{time_str} ({self.level}, {self.ip}) '
            '{self.group}.{self.text}')

`isoLocaltime` abstracts `localtime(...).isoformat()`.  The second Python
string literal is NOT an f-string, so it is appended verbatim: the returned
string ends with the fifteen characters `{self.group}.{self.text}` spelled
out literally, and the row's `group` and `text` values are never inserted. -/
def UserLog.pretty (isoLocaltime : Int → String) (l : UserLog) : String :=
  let username := match l.user with
    | some u => u.username
    | none => "undefined"
  let time_str := isoLocaltime l.time
  username ++ "/" ++ time_str ++ " (" ++ toString l.level ++ ", " ++ l.ip
    ++ ") " ++ "\x7bself.group\x7d.\x7bself.text\x7d"

/-- Substring test on strings, used to state what a rendering contains. -/
def containsSubstr (s pat : String) : Bool :=
  (List.range (s.data.length + 1)).any (fun i => pat.data.isPrefixOf (s.data.drop i))

/-! Concrete sample rows and databases, used for witnesses and
counterexamples. -/

def u1 : User := { id := 1, username := "alice" }

/-- The spec's worked example: an item with base price 1000. -/
def item9 : Item :=
  { id := 1, title := "tangerines", host := 1, price := 1000, join_type := "0",
    created_date := 0, deadline := 100, delivery_date := none,
    is_deleted := false }

def cat9 : OptionCategory := { id := 1, name := "Size", item := 1 }

/-- The spec's worked example: a selected option with price delta 200. -/
def opt9 : OptionItem := { id := 1, name := "Large", price_delta := 200, category := 1 }

/-- The spec's worked example: a record selecting `opt9` with quantity 2. -/
def rec9 : Record := { id := 1, participant := 1, item := 1, options := [1], quantity := 2 }

/-- A record for the same item selecting no options, with quantity 5. -/
def rec10 : Record := { id := 2, participant := 1, item := 1, options := [], quantity := 5 }

def db9 : DB :=
  { users := [u1], items := [item9], contents := [], comments := [],
    optionCategories := [cat9], optionItems := [opt9],
    records := [rec9, rec10], payments := [], logs := [] }

/-! Theorems. -/

/-- Folding `+ price_delta` over option rows equals adding the sum of their
price deltas. -/
theorem foldl_price_delta (l : List OptionItem) (init : Int) :
    l.foldl (fun price o => price + o.price_delta) init
      = init + (l.map OptionItem.price_delta).sum := by
  induction l generalizing init with
  | nil => simp
  | cons o tl ih => simp [ih, add_assoc]

/-- C1: for every record whose item exists, `Record.cost` returns
(item price + sum of the selected options' price deltas) * quantity.  The
statement quantifies over every `options` selection, with no hypothesis
relating the selected options to the item's option categories: the method
performs no such validation. -/
theorem cost_formula (db : DB) (r : Record) (it : Item)
    (h : db.items.find? (fun i => i.id == r.item) = some it) :
    Record.cost db r
      = some ((it.price
          + ((Record.selectedOptions db r).map OptionItem.price_delta).sum)
            * r.quantity) := by
  simp only [Record.cost, h, foldl_price_delta]

/-- C1 witness: the formula instantiated on the sample database. -/
theorem cost_formula_witness :
    Record.cost db9 rec9
      = some ((item9.price
          + ((Record.selectedOptions db9 rec9).map OptionItem.price_delta).sum)
            * rec9.quantity) :=
  cost_formula db9 rec9 item9 rfl

/-- C9: on the spec's worked example — base price 1000, one selected option
with price delta 200, quantity 2 — `Record.cost` returns 2400. -/
theorem cost_example_2400 : Record.cost db9 rec9 = some 2400 := by decide

/-- C10: for every record selecting no options (whose item exists),
`Record.cost` returns exactly item price * quantity. -/
theorem cost_empty_options (db : DB) (r : Record) (it : Item)
    (hopts : r.options = [])
    (h : db.items.find? (fun i => i.id == r.item) = some it) :
    Record.cost db r = some (it.price * r.quantity) := by
  have hsel : Record.selectedOptions db r = [] := by
    unfold Record.selectedOptions
    rw [hopts]
    simp [List.contains]
  simp only [Record.cost, h, hsel, List.foldl_nil]

/-- C10 witness: the option-free record of the sample database costs
1000 * 5. -/
theorem cost_empty_options_witness :
    Record.cost db9 rec10 = some (item9.price * rec10.quantity) :=
  cost_empty_options db9 rec10 item9 rfl rfl

/-! Deletion-cascade data and theorems (C2, C5). -/

def item2a : Item :=
  { id := 1, title := "apples", host := 1, price := 500, join_type := "0",
    created_date := 0, deadline := 10, delivery_date := none,
    is_deleted := false }

def item2b : Item :=
  { id := 2, title := "pears", host := 1, price := 700, join_type := "1",
    created_date := 0, deadline := 20, delivery_date := some 30,
    is_deleted := false }

def rec2a : Record := { id := 1, participant := 1, item := 1, options := [], quantity := 1 }

def rec2b : Record := { id := 2, participant := 1, item := 2, options := [], quantity := 3 }

def pay2a : Payment := { id := 1, item := 1, participant := 1, total := 500, status := "0" }

def db2 : DB :=
  { users := [u1], items := [item2a, item2b], contents := [], comments := [],
    optionCategories := [], optionItems := [],
    records := [rec2a, rec2b], payments := [pay2a], logs := [] }

/-- C2 counterexample: a record and a payment referencing item 1 are present
before `deleteItem db2 1` and gone after it — they are swept along by the
cascade (`Record.item` and `Payment.item` both declare
`on_delete=models.CASCADE`), so deleting the item does not leave them
intact. -/
theorem delete_not_keeping_records_counterexample :
    rec2a ∈ db2.records ∧ rec2a.item = 1 ∧
    pay2a ∈ db2.payments ∧ pay2a.item = 1 ∧
    rec2a ∉ (deleteItem db2 1).records ∧
    pay2a ∉ (deleteItem db2 1).payments := by decide

/-- C2 amended: physically deleting an Item deletes every Record row and
every Payment row referencing it — Record and Payment ARE part of the Item
deletion cascade. -/
theorem deleteItem_removes_records_payments (db : DB) (i : Nat)
    (r : Record) (p : Payment)
    (hr : r ∈ db.records) (hri : r.item = i)
    (hp : p ∈ db.payments) (hpi : p.item = i) :
    r ∉ (deleteItem db i).records ∧ p ∉ (deleteItem db i).payments := by
  constructor
  · intro hmem
    simp only [deleteItem] at hmem
    obtain ⟨r', hr', hmap⟩ := List.mem_map.mp hmem
    have hpred := (List.mem_filter.mp hr').2
    have hne : ¬(r'.item = i) := by simpa using hpred
    apply hne
    have hitem : r.item = r'.item := by rw [← hmap]
    rw [← hitem, hri]
  · intro hmem
    simp only [deleteItem] at hmem
    have hpred := (List.mem_filter.mp hmem).2
    have hne : ¬(p.item = i) := by simpa using hpred
    exact hne hpi

/-- C2 amended, witness: the record and payment of the second sample item are
removed when that item is deleted. -/
theorem deleteItem_removes_records_payments_witness :
    rec2a ∉ (deleteItem db2 1).records ∧ pay2a ∉ (deleteItem db2 1).payments :=
  deleteItem_removes_records_payments db2 1 rec2a pay2a (by decide) rfl
    (by decide) rfl

def content5 : Content :=
  { id := 1, item := 1, order := 1, type := "0", content := some "hello",
    image := none, link := none, is_hidden := false }

def comment5 : Comment :=
  { id := 1, item := 1, content := "first", writer := 1, created_date := 0,
    is_deleted := false }

def db5 : DB :=
  { users := [u1], items := [item9], contents := [content5],
    comments := [comment5], optionCategories := [cat9], optionItems := [opt9],
    records := [], payments := [], logs := [] }

/-- C5: physically deleting an Item deletes every Content row, every Comment
row and every OptionCategory row belonging to it, and transitively every
OptionItem row of those categories. -/
theorem deleteItem_cascades_children (db : DB) (i : Nat)
    (c : Content) (cm : Comment) (oc : OptionCategory) (oi : OptionItem)
    (hc : c ∈ db.contents) (hci : c.item = i)
    (hcm : cm ∈ db.comments) (hcmi : cm.item = i)
    (hoc : oc ∈ db.optionCategories) (hoci : oc.item = i)
    (hoi : oi ∈ db.optionItems) (hcat : oi.category = oc.id) :
    c ∉ (deleteItem db i).contents ∧ cm ∉ (deleteItem db i).comments ∧
    oc ∉ (deleteItem db i).optionCategories ∧
    oi ∉ (deleteItem db i).optionItems := by
  refine ⟨?_, ?_, ?_, ?_⟩
  · intro hmem
    simp only [deleteItem] at hmem
    have hpred := (List.mem_filter.mp hmem).2
    have hne : ¬(c.item = i) := by simpa using hpred
    exact hne hci
  · intro hmem
    simp only [deleteItem] at hmem
    have hpred := (List.mem_filter.mp hmem).2
    have hne : ¬(cm.item = i) := by simpa using hpred
    exact hne hcmi
  · intro hmem
    simp only [deleteItem] at hmem
    have hpred := (List.mem_filter.mp hmem).2
    have hne : ¬(oc.item = i) := by simpa using hpred
    exact hne hoci
  · intro hmem
    simp only [deleteItem] at hmem
    have hpred := (List.mem_filter.mp hmem).2
    have hcasc : optionItemCascades db i oi = true := by
      unfold optionItemCascades
      rw [List.any_eq_true]
      exact ⟨oc, hoc, by simp [hcat, hoci]⟩
    rw [hcasc] at hpred
    exact Bool.false_ne_true hpred

/-- C5 witness: the content, comment, option category and option item of the
sample database are all removed when their item is deleted. -/
theorem deleteItem_cascades_children_witness :
    content5 ∉ (deleteItem db5 1).contents ∧
    comment5 ∉ (deleteItem db5 1).comments ∧
    cat9 ∉ (deleteItem db5 1).optionCategories ∧
    opt9 ∉ (deleteItem db5 1).optionItems :=
  deleteItem_cascades_children db5 1 content5 comment5 cat9 opt9
    (by decide) rfl (by decide) rfl (by decide) rfl (by decide) rfl

/-- C6: soft-deleting an Item sets its `is_deleted` flag and changes nothing
else — every other table is untouched, the targeted row stays present with
all other columns unchanged, and rows of other items are unchanged. -/
theorem softDeleteItem_frame (db : DB) (i : Nat) (it : Item)
    (hit : it ∈ db.items) :
    (softDeleteItem db i).users = db.users ∧
    (softDeleteItem db i).contents = db.contents ∧
    (softDeleteItem db i).comments = db.comments ∧
    (softDeleteItem db i).optionCategories = db.optionCategories ∧
    (softDeleteItem db i).optionItems = db.optionItems ∧
    (softDeleteItem db i).records = db.records ∧
    (softDeleteItem db i).payments = db.payments ∧
    (softDeleteItem db i).logs = db.logs ∧
    (it.id = i → { it with is_deleted := true } ∈ (softDeleteItem db i).items) ∧
    (it.id ≠ i → it ∈ (softDeleteItem db i).items) := by
  refine ⟨rfl, rfl, rfl, rfl, rfl, rfl, rfl, rfl, ?_, ?_⟩
  · intro h
    have hm := List.mem_map_of_mem
      (fun x : Item => if x.id == i then { x with is_deleted := true } else x) hit
    simp only [softDeleteItem]
    simpa [h] using hm
  · intro h
    have hm := List.mem_map_of_mem
      (fun x : Item => if x.id == i then { x with is_deleted := true } else x) hit
    simp only [softDeleteItem]
    simpa [h] using hm

/-- C6 witness: soft-deleting the sample item leaves the content and comment
tables equal and keeps the flagged row. -/
theorem softDeleteItem_frame_witness :
    (softDeleteItem db5 1).users = db5.users ∧
    (softDeleteItem db5 1).contents = db5.contents ∧
    (softDeleteItem db5 1).comments = db5.comments ∧
    (softDeleteItem db5 1).optionCategories = db5.optionCategories ∧
    (softDeleteItem db5 1).optionItems = db5.optionItems ∧
    (softDeleteItem db5 1).records = db5.records ∧
    (softDeleteItem db5 1).payments = db5.payments ∧
    (softDeleteItem db5 1).logs = db5.logs ∧
    (item9.id = 1 →
      { item9 with is_deleted := true } ∈ (softDeleteItem db5 1).items) ∧
    (item9.id ≠ 1 → item9 ∈ (softDeleteItem db5 1).items) :=
  softDeleteItem_frame db5 1 item9 (by decide)

/-! Schema-acceptance data and theorems (C7, C8). -/

/-- A TEXT-typed content row with all three payload fields empty. -/
def content7 : Content :=
  { id := 1, item := 1, order := 1, type := "0", content := none,
    image := none, link := none, is_hidden := false }

def db7 : DB :=
  { users := [u1], items := [item9], contents := [content7], comments := [],
    optionCategories := [], optionItems := [], records := [], payments := [],
    logs := [] }

/-- C7 counterexample: the schema accepts a TEXT content row with all of
content, image and link empty — zero populated payload fields, not exactly
one, and not matching the type. -/
theorem content_empty_payload_counterexample :
    Content.schemaAccepts db7 content7 = true ∧
    ¬(content7.populatedCount = 1) ∧
    Content.payloadMatchesType content7 = false := by decide

/-- C7 amended: schema acceptance of a Content row is independent of its
content, image and link fields — the exactly-one-populated-matching-type
discipline is documented but not schema-enforced, so rows with zero or
mismatched payload fields are accepted. -/
theorem content_schema_ignores_payload (db : DB) (c : Content)
    (t im lk : Option String) :
    Content.schemaAccepts db { c with content := t, image := im, link := lk }
      = Content.schemaAccepts db c := rfl

/-- A record with quantity 0 and valid foreign keys. -/
def rec8 : Record := { id := 1, participant := 1, item := 1, options := [], quantity := 0 }

def db8 : DB :=
  { users := [u1], items := [item9], contents := [], comments := [],
    optionCategories := [], optionItems := [], records := [rec8],
    payments := [], logs := [] }

/-- C8 counterexample: the schema accepts a record with quantity 0, which is
not a positive integer — `quantity = models.IntegerField()` carries no
positivity constraint. -/
theorem record_zero_quantity_counterexample :
    Record.schemaAccepts db8 rec8 = true ∧ ¬(1 ≤ rec8.quantity) := by decide

/-- C8 amended: schema acceptance of a Record row is independent of its
quantity — the quantity column is a plain integer field, so zero and negative
quantities are accepted; positivity is a business rule of the callers. -/
theorem record_schema_ignores_quantity (db : DB) (r : Record) (q : Int) :
    Record.schemaAccepts db { r with quantity := q }
      = Record.schemaAccepts db r := rfl

/-! UserLog rendering data and theorems (C3, C4). -/

/-- A stand-in for `localtime(...).isoformat()`, returning a fixed rendered
instant. -/
def isoStub : Int → String := fun _ => "2020-01-01T00:00:00+09:00"

/-- A log row for a named user with a distinctive message. -/
def log3 : UserLog :=
  { id := 1, user := some u1, level := 20, time := 0, ip := "127.0.0.1",
    group := "sparcs09.account", text := "password changed",
    is_hidden := false }

/-- A log row with no user (a system/global event). -/
def log4 : UserLog :=
  { id := 2, user := none, level := 30, time := 5, ip := "0.0.0.0",
    group := "sparcs09.account", text := "login failed", is_hidden := false }

/-- C3: `UserLog.pretty` never inserts the row's group tag or free-text
message — the second string literal of the Python method lacks the `f`
prefix, so the rendering ends with the verbatim characters
`\x7bself.group\x7d.\x7bself.text\x7d` and contains neither the group value
nor the text value of the row. -/
theorem pretty_drops_group_and_text :
    UserLog.pretty isoStub log3 =
      "alice/2020-01-01T00:00:00+09:00 (20, 127.0.0.1) \x7bself.group\x7d.\x7bself.text\x7d"
    ∧ containsSubstr (UserLog.pretty isoStub log3) log3.text = false
    ∧ containsSubstr (UserLog.pretty isoStub log3) log3.group = false := by
  refine ⟨by decide, by decide, by decide⟩

/-- String concatenation is associative. -/
theorem str_append_assoc (a b c : String) : a ++ b ++ c = a ++ (b ++ c) := by
  apply String.ext
  simp [String.data_append, List.append_assoc]

/-- C4: for every log row whose user is absent, the rendering starts with
`undefined/` — since `undefined` contains no slash, the display-name segment
(everything before the first `/`) is exactly the sentinel `undefined`. -/
theorem pretty_none_undefined (f : Int → String) (l : UserLog)
    (h : l.user = none) :
    ∃ rest : String, UserLog.pretty f l = "undefined/" ++ rest := by
  refine ⟨f l.time ++ " (" ++ toString l.level ++ ", " ++ l.ip ++ ") "
    ++ "\x7bself.group\x7d.\x7bself.text\x7d", ?_⟩
  simp only [UserLog.pretty, h]
  simp only [str_append_assoc]
  rw [← str_append_assoc]
  congr 1

/-- C4 witness: the sentinel on the concrete system-event row. -/
theorem pretty_none_undefined_witness :
    ∃ rest : String, UserLog.pretty isoStub log4 = "undefined/" ++ rest :=
  pretty_none_undefined isoStub log4 rfl

end Sparcs09
